import Mathlib

/-!
Verification of the Scruffy scene-plan core: the validator/normalizer
(`src/validate/normalizer.py`), the interactive viewer's mesh builder,
lenient JSON loader and auto-framer (`src/3dviewer.py`), and the pose
composition shared with the Manim backend (`src/json2manim.py`).

Numeric model: plan values are embedded as rationals (`ℚ`); Python floats
are a subset of the rationals and the normalizer only performs order
comparisons, `max`/`min` and assignments on them, so the embedding is
exact on every representable input.  The geometry algorithms that use
`sqrt`, `sin` and `cos` are embedded over `ℝ`.
-/

namespace Scruffy

/-! ## Data model (src/planner/structured_plan.py) -/

/-- Color model; pydantic clamps each channel to [0,1] on construction
(`Color.clamp_unit`). -/
structure Color where
  r : ℚ
  g : ℚ
  b : ℚ
deriving DecidableEq, Repr

/-- Channel clamp applied by the pydantic field validator. -/
def clampUnit (v : ℚ) : ℚ := max 0 (min 1 v)

/-- Constructor mirroring pydantic validation: channels clamped to [0,1]. -/
def mkColor (r g b : ℚ) : Color := ⟨clampUnit r, clampUnit g, clampUnit b⟩

/-- Transform value: vectors are kept as raw lists because upstream JSON may
supply fewer or more than three components; the normalizer repairs them. -/
@[ext]
structure Transform where
  location : List ℚ
  rotation_degrees : List ℚ
  scale : List ℚ
deriving DecidableEq, Repr

/-- Default Transform (pydantic default_factory values). -/
def Transform.default : Transform :=
  ⟨[0, 0, 0], [0, 0, 0], [1, 1, 1]⟩

/-- Object spec.  `type` is a plain string: the normalizer treats it by
set-membership, dropping anything outside the supported set.  The optional
animation payload is never read nor written by the normalizer; it is kept
abstract. -/
structure ObjectSpec where
  name : String
  type : String
  color : Color
  dimensions : List ℚ
  transform : Transform
  animation : Option Unit := none
deriving DecidableEq, Repr

/-- Camera spec (name, transform, optional look_at, focal length). -/
@[ext]
structure CameraSpec where
  name : String := "Camera"
  transform : Transform := Transform.default
  look_at : Option (List ℚ) := none
  animation : Option Unit := none
  focal_length_mm : ℚ := 35
deriving DecidableEq, Repr

/-- Default camera (pydantic defaults), used by `normalize_plan` when the
plan's camera is absent (`plan.camera or CameraSpec()`). -/
def CameraSpec.default : CameraSpec := {}

/-- Render settings. `fps`, `resolution_x`, `resolution_y` are ints in the
source model. -/
@[ext]
structure RenderSettings where
  duration_seconds : ℚ
  fps : ℤ
  resolution_x : ℤ
  resolution_y : ℤ
  background_color : Color
deriving DecidableEq, Repr

/-- The scene plan document. `camera` is optional here to mirror the
defensive `plan.camera or CameraSpec()` in the normalizer. -/
@[ext]
structure ScenePlan where
  version : String := "1.0"
  description : Option String := none
  render : RenderSettings
  camera : Option CameraSpec := some CameraSpec.default
  objects : List ObjectSpec
deriving DecidableEq, Repr

/-! ## Validator/Normalizer (src/validate/normalizer.py) -/

/-- `SUPPORTED` set of primitive type names (normalizer.py line 16). -/
def SUPPORTED : List String :=
  ["cube", "sphere", "cylinder", "cone", "plane", "torus"]

/-- `_clamp(v, lo, hi) = max(lo, min(hi, float(v)))`. -/
def clamp (v lo hi : ℚ) : ℚ := max lo (min hi v)

/-- Integer clamp: the source computes `int(_clamp(float(n), lo, hi))`;
for integer input the float round-trip and truncation are the identity on
the clamped value, so this is `max lo (min hi n)` over `ℤ`. -/
def clampInt (v lo hi : ℤ) : ℤ := max lo (min hi v)

/-- `_clamp_vec(vals, lo, hi, length)`: zero-pad to `length`, then clamp
entry `i` for `i in range(length)` (extra entries are never read). -/
def clampVec (vals : List ℚ) (lo hi : ℚ) (length : ℕ) : List ℚ :=
  let arr := vals ++ List.replicate (length - vals.length) 0
  (List.range length).map fun i => clamp (arr.getD i 0) lo hi

/-- The synthetic default object inserted when every object was dropped
(normalizer.py lines 67-75).  Fields not passed to the constructor take
the pydantic defaults, in particular `transform = Transform.default`. -/
def defaultCube : ObjectSpec :=
  { name := "DefaultCube"
  , type := "cube"
  , color := mkColor 0.6 0.7 0.9
  , dimensions := [1, 1, 1]
  , transform := Transform.default }

/-- Per-object normalization step (loop body, normalizer.py lines 53-64):
clamp location/rotation/scale/dimensions, then the plane-leveling
heuristic.  `location` has length 3 after clamping, so the index-2 access
in the source is total and modeled with `getD`/`set`. -/
def normObject (o : ObjectSpec) : ObjectSpec :=
  let t := o.transform
  let t : Transform :=
    { location := clampVec t.location (-100) 100 3
    , rotation_degrees := clampVec t.rotation_degrees (-360) 360 3
    , scale := clampVec t.scale 0.05 50 3 }
  let dims := clampVec o.dimensions 0.05 50 3
  if o.type = "plane" then
    let t := { t with rotation_degrees := [0, 0, 0] }
    let t :=
      if |t.location.getD 2 0| < 0.01 then
        { t with location := t.location.set 2 0 }
      else t
    { o with transform := t, dimensions := dims }
  else
    { o with transform := t, dimensions := dims }

/-- `normalize_plan` (normalizer.py lines 30-77). -/
def normalize_plan (p : ScenePlan) : ScenePlan :=
  let r := p.render
  let r : RenderSettings :=
    { r with
      duration_seconds := clamp r.duration_seconds 0.5 5
      fps := clampInt r.fps 12 60
      resolution_x := clampInt r.resolution_x 320 1920
      resolution_y := clampInt r.resolution_y 180 1080 }
  let cam := p.camera.getD CameraSpec.default
  let cam : CameraSpec :=
    { cam with
      transform :=
        { location := clampVec cam.transform.location (-100) 100 3
        , rotation_degrees := clampVec cam.transform.rotation_degrees (-360) 360 3
        , scale := clampVec cam.transform.scale 0.05 50 3 } }
  let objs := p.objects.filterMap fun o =>
    if o.type ∈ SUPPORTED then some (normObject o) else none
  let objs := if objs.isEmpty then [defaultCube] else objs
  { p with render := r, camera := some cam, objects := objs }

/-! ## Concrete plans used to exercise the normalizer -/

/-- A minimal render settings record (all values in range). -/
def baseRender : RenderSettings :=
  { duration_seconds := 1
  , fps := 24
  , resolution_x := 640
  , resolution_y := 480
  , background_color := ⟨0, 0, 0⟩ }

/-- A plan with no objects at all. -/
def emptyPlan : ScenePlan := { render := baseRender, objects := [] }

/-- An object whose type is not a supported primitive. -/
def teapotObj : ObjectSpec :=
  { name := "T"
  , type := "teapot"
  , color := ⟨1, 0, 0⟩
  , dimensions := [1, 1, 1]
  , transform := Transform.default }

/-- A plan whose only object has the unsupported type "teapot". -/
def teapotPlan : ScenePlan := { render := baseRender, objects := [teapotObj] }

/-- A plan holding a teapot followed by a supported cube. -/
def mixedPlan : ScenePlan := { render := baseRender, objects := [teapotObj, defaultCube] }

/-! ## Viewer mesh builder (src/3dviewer.py, make_mesh) -/

/-- Raw transform block as read from JSON by the viewer (`obj.get("transform",
{})` plus per-key defaults); each key may be absent. -/
structure ViewerTransform where
  location : Option (List ℚ) := none
  rotation_degrees : Option (List ℚ) := none
  scale : Option (List ℚ) := none
deriving DecidableEq, Repr

/-- Raw object dict as consumed by `make_mesh`: `obj["type"]` is required,
the rest are `obj.get(...)` with defaults. -/
structure ViewerObj where
  type : String
  dimensions : Option (List ℚ) := none
  color : Option Color := none
  transform : Option ViewerTransform := none
deriving DecidableEq, Repr

/-- `rgb01`: scale a color down by 255 when any channel exceeds 1. -/
def rgb01 (c : Color) : ℚ × ℚ × ℚ :=
  if max c.r (max c.g c.b) > 1 then (c.r / 255, c.g / 255, c.b / 255)
  else (c.r, c.g, c.b)

/-- Python `int()` on a rational: truncation toward zero. -/
def pyInt (q : ℚ) : ℤ := Int.sign q.num * ((q.num.natAbs / q.den : ℕ) : ℤ)

/-- `rgb255`: 8-bit RGBA vertex color derived from `rgb01`. -/
def rgb255 (c : Color) : ℤ × ℤ × ℤ × ℤ :=
  let (r, g, b) := rgb01 c
  (pyInt (r * 255), pyInt (g * 255), pyInt (b * 255), 255)

/-- Canonical description of the local-space geometry produced by the
trimesh constructor calls in `make_mesh`.  The library constructors are
deterministic external functions; a `LocalGeom` value records which
constructor was invoked and with which parameters.  For the torus the
construction method (library torus vs. the in-file parametric fallback)
depends on the installed trimesh version, but the radii passed are fixed;
the parametric fallback itself is embedded separately below. -/
inductive LocalGeom where
  | box (ex ey ez : ℚ)
  | icosphere (subdivisions : ℕ) (radius : ℚ)
  | scaled (sx sy sz : ℚ) (g : LocalGeom)
  | cylinder (radius height : ℚ) (sections : ℕ)
  | cone (radius height : ℚ) (sections : ℕ)
  | torus (majorRadius minorRadius : ℚ)
deriving DecidableEq, Repr

/-- Result of `make_mesh`: the local geometry, the tiled vertex color, and
the pose parameters (`translation_matrix(loc) @ euler_matrix(..., "sxyz")`)
applied to it.  The pose matrix itself is studied over `ℝ` below. -/
structure Mesh where
  geom : LocalGeom
  color : ℤ × ℤ × ℤ × ℤ
  loc : List ℚ
  rotDeg : ℚ × ℚ × ℚ
deriving DecidableEq, Repr

/-- ASCII lower-casing of one character, modeling Python `str.lower` on the
ASCII type tags handled here. -/
def charLower (c : Char) : Char :=
  if 'A' ≤ c ∧ c ≤ 'Z' then Char.ofNat (c.toNat + 32) else c

/-- `str(obj["type"]).lower()` (ASCII model of Python `str.lower`). -/
def strLower (s : String) : String := ⟨s.data.map charLower⟩

/-- Python list indexing: out-of-range raises `IndexError`. -/
def getIdx (l : List ℚ) (i : ℕ) : Except String ℚ :=
  match l.get? i with
  | some v => .ok v
  | none => .error "IndexError"

/-- `make_mesh(obj)` (3dviewer.py lines 66-143): dispatch on the lowered
type string, build the local geometry, return `None` for unsupported
types, otherwise attach color and pose parameters.  Guarded accesses
(`dims[1] if len(dims) > 1 else ...`) are modeled with `getD` under the
same guard; unguarded accesses use `getIdx` and surface `IndexError`. -/
def makeMesh (obj : ViewerObj) : Except String (Option Mesh) := do
  let typ := strLower obj.type
  let dims := obj.dimensions.getD []
  let col := rgb255 (obj.color.getD ⟨200, 200, 200⟩)
  let geom? : Option LocalGeom ←
    if typ = "cube" then do
      let d0 ← getIdx dims 0
      let d1 ← getIdx dims 1
      let d2 ← getIdx dims 2
      pure (some (.box d0 d1 d2))
    else if typ = "sphere" then
      if dims.length = 1 then do
        let d0 ← getIdx dims 0
        pure (some (.icosphere 3 d0))
      else do
        let d0 ← getIdx dims 0
        let d1 ← getIdx dims 1
        let d2 ← getIdx dims 2
        pure (some (.scaled d0 d1 d2 (.icosphere 3 1)))
    else if typ = "cylinder" then do
      let r ← getIdx dims 0
      let h ← if dims.length > 2 then getIdx dims 2 else getIdx dims 1
      pure (some (.cylinder r h 64))
    else if typ = "cone" then do
      let r ← getIdx dims 0
      let h ← if dims.length > 2 then getIdx dims 2 else getIdx dims 1
      pure (some (.cone r h 64))
    else if typ = "plane" then do
      let w ← getIdx dims 0
      let h ← getIdx dims 1
      let t := if dims.length > 2 then dims.getD 2 0 else 0.01
      pure (some (.box w h (max t 0.001)))
    else if typ = "torus" then do
      let d0 ← getIdx dims 0
      let R := ((d0 + (if dims.length > 1 then dims.getD 1 0 else d0)) / 2) * 0.5
      let r := (if dims.length > 2 then dims.getD 2 0
                else max 0.1 (0.2 * (if d0 = 0 then 1 else d0))) * 0.5
      pure (some (.torus R r))
    else
      pure none
  match geom? with
  | none => pure none
  | some g =>
    let tr := obj.transform.getD ⟨none, none, none⟩
    let loc := tr.location.getD [0, 0, 0]
    let rot := tr.rotation_degrees.getD [0, 0, 0]
    let r0 ← getIdx rot 0
    let r1 ← getIdx rot 1
    let r2 ← getIdx rot 2
    pure (some { geom := g, color := col, loc := loc, rotDeg := (r0, r1, r2) })

/-- The torus object of the spec's construction example. -/
def torusObj : ViewerObj := { type := "torus", dimensions := some [2, 2, 0.6] }

/-! ## Parametric torus fallback (`_parametric_torus` in make_mesh) -/

/-- Vertex index helper `vid(i, j)` with wrap-around on both axes. -/
def torusVid (su sv i j : ℕ) : ℕ := (i % su) * sv + (j % sv)

/-- Vertex list of `_parametric_torus(R, r, seg_u, seg_v)`: the outer loop
runs over the major segments, the inner over the minor segments. -/
noncomputable def parametricTorusVerts (R r : ℝ) (seg_u seg_v : ℕ) : List (ℝ × ℝ × ℝ) :=
  let su := max 8 seg_u
  let sv := max 6 seg_v
  (List.range su).flatMap fun (i : ℕ) =>
    (List.range sv).map fun (j : ℕ) =>
      let u := 2 * Real.pi * ((i : ℝ) / (su : ℝ))
      let v := 2 * Real.pi * ((j : ℝ) / (sv : ℝ))
      ((R + r * Real.cos v) * Real.cos u,
        ((R + r * Real.cos v) * Real.sin u,
          r * Real.sin v))

/-- Face list of `_parametric_torus`: each (i, j) quad is split into two
triangles `[a,b,c]`, `[a,c,d]` with wrapped indices. -/
def parametricTorusFaces (seg_u seg_v : ℕ) : List (List ℕ) :=
  let su := max 8 seg_u
  let sv := max 6 seg_v
  (List.range su).flatMap fun i =>
    (List.range sv).flatMap fun j =>
      let a := torusVid su sv i j
      let b := torusVid su sv (i + 1) j
      let c := torusVid su sv (i + 1) (j + 1)
      let d := torusVid su sv i (j + 1)
      [[a, b, c], [a, c, d]]

/-! ## Lenient JSON loading (`_load_json_lenient`, 3dviewer.py lines 145-160)

`json.loads` and the two `re.sub` comment strippers are external library
functions; they are modeled as abstract deterministic functions `parse`
and `strip`.  The embedding captures the control flow exactly: strict
parse first; on failure parse the stripped text; on a second failure the
function re-parses the original text, so the error finally raised is the
original strict-mode error. -/

def loadJsonLenient {ε α : Type} (parse : String → Except ε α)
    (strip : String → String) (txt : String) : Except ε α :=
  match parse txt with
  | .ok v => .ok v
  | .error _ =>
    match parse (strip txt) with
    | .ok v => .ok v
    | .error _ => parse txt

/-! ## Pose composition over ℝ
(3dviewer.py `make_mesh` lines 136-142 and json2manim.py `build_mobject`
lines 114-119) -/

/-- Points of world space. -/
def Vec3 : Type := ℝ × ℝ × ℝ

noncomputable instance : DecidableEq Vec3 := fun _ _ => Classical.dec _

def addV (a b : Vec3) : Vec3 := (a.1 + b.1, a.2.1 + b.2.1, a.2.2 + b.2.2)

def subV (a b : Vec3) : Vec3 := (a.1 - b.1, a.2.1 - b.2.1, a.2.2 - b.2.2)

def smulV (c : ℝ) (v : Vec3) : Vec3 := (c * v.1, c * v.2.1, c * v.2.2)

/-- Componentwise minimum (numpy `min(axis=0)` accumulation step). -/
def minV (a b : Vec3) : Vec3 := (min a.1 b.1, min a.2.1 b.2.1, min a.2.2 b.2.2)

/-- Componentwise maximum. -/
def maxV (a b : Vec3) : Vec3 := (max a.1 b.1, max a.2.1 b.2.1, max a.2.2 b.2.2)

/-- Euclidean norm (`np.linalg.norm`). -/
noncomputable def norm3 (v : Vec3) : ℝ := Real.sqrt (v.1 ^ 2 + v.2.1 ^ 2 + v.2.2 ^ 2)

/-- Unit vector in the direction of `v`. -/
noncomputable def normalize3 (v : Vec3) : Vec3 := smulV (1 / norm3 v) v

/-- Rotation about the world X axis (column-vector convention). -/
noncomputable def rotX (a : ℝ) (v : Vec3) : Vec3 :=
  (v.1,
    Real.cos a * v.2.1 - Real.sin a * v.2.2,
    Real.sin a * v.2.1 + Real.cos a * v.2.2)

/-- Rotation about the world Y axis. -/
noncomputable def rotY (a : ℝ) (v : Vec3) : Vec3 :=
  (Real.cos a * v.1 + Real.sin a * v.2.2,
    v.2.1,
    -Real.sin a * v.1 + Real.cos a * v.2.2)

/-- Rotation about the world Z axis. -/
noncomputable def rotZ (a : ℝ) (v : Vec3) : Vec3 :=
  (Real.cos a * v.1 - Real.sin a * v.2.1,
    Real.sin a * v.1 + Real.cos a * v.2.1,
    v.2.2)

/-- Degrees to radians (`np.deg2rad` / manim `DEGREES`). -/
noncomputable def deg2rad (d : ℝ) : ℝ := d * Real.pi / 180

/-- Rotation part of `trimesh.transformations.euler_matrix(ai, aj, ak,
"sxyz")`, with the matrix entries transcribed from the library source
(`cj*ck`, `sj*sc - cs`, ... for axes `i, j, k = 0, 1, 2`, no repetition,
static frame). -/
noncomputable def eulerSXYZ (ai aj ak : ℝ) (p : Vec3) : Vec3 :=
  let si := Real.sin ai
  let sj := Real.sin aj
  let sk := Real.sin ak
  let ci := Real.cos ai
  let cj := Real.cos aj
  let ck := Real.cos ak
  let cc := ci * ck
  let cs := ci * sk
  let sc := si * ck
  let ss := si * sk
  ((cj * ck) * p.1 + (sj * sc - cs) * p.2.1 + (sj * cc + ss) * p.2.2,
    ((cj * sk) * p.1 + (sj * ss + cc) * p.2.1 + (sj * cs - sc) * p.2.2,
      (-sj) * p.1 + (cj * si) * p.2.1 + (cj * ci) * p.2.2))

/-- Pose applied by the interactive viewer:
`translation_matrix(loc) @ euler_matrix(deg2rad rx, deg2rad ry, deg2rad rz,
"sxyz")` acting on a local-space point. -/
noncomputable def viewerPose (loc rotDeg v : Vec3) : Vec3 :=
  addV loc (eulerSXYZ (deg2rad rotDeg.1) (deg2rad rotDeg.2.1) (deg2rad rotDeg.2.2) v)

/-- Pose applied by the Manim backend on origin-centered local geometry:
`.rotate(rx, axis=RIGHT).rotate(ry, axis=UP).rotate(rz, axis=OUT)
.shift(pos)` — three successive rotations about the fixed world axes
(each about the mobject center, which stays at the origin), then the
translation. -/
noncomputable def manimPose (pos rotDeg v : Vec3) : Vec3 :=
  addV pos (rotZ (deg2rad rotDeg.2.2) (rotY (deg2rad rotDeg.2.1) (rotX (deg2rad rotDeg.1) v)))

/-- The pose formula asserted by the specification, read as the matrix
product `Translate(location) · RotateX(rx) · RotateY(ry) · RotateZ(rz)`
acting on column vectors: Z is applied first, then Y, then X. -/
noncomputable def claimPose (loc rotDeg v : Vec3) : Vec3 :=
  addV loc (rotX (deg2rad rotDeg.1) (rotY (deg2rad rotDeg.2.1) (rotZ (deg2rad rotDeg.2.2) v)))

/-! ## Auto-framer (load_scene, 3dviewer.py lines 228-240) -/

/-- The auto-framing computation of `load_scene`: from the world-space
bounds `(min, max)` of each mesh, compute the camera target `center`, the
standoff `dist`, and the eye position.  Mirrors the numpy reduction:
`mins = all_bounds[::2].min(axis=0)`, `maxs = all_bounds[1::2].max(axis=0)`,
`center = (mins + maxs) * 0.5`, `size = norm(maxs - mins)`,
`dist = max(1.0, 1.8 * size)`, `eye = center + [1.2, 1.2, 0.8] * dist`,
with `center = 0`, `dist = 5.0` when there are no meshes. -/
noncomputable def autoFrame (bounds : List (Vec3 × Vec3)) : Vec3 × ℝ × Vec3 :=
  let cd : Vec3 × ℝ :=
    match bounds with
    | [] => ((0, 0, 0), 5)
    | b :: bs =>
      let mins := bs.foldl (fun acc p => minV acc p.1) b.1
      let maxs := bs.foldl (fun acc p => maxV acc p.2) b.2
      let center := smulV (1 / 2) (addV mins maxs)
      let size := norm3 (subV maxs mins)
      (center, max 1 (1.8 * size))
  (cd.1, cd.2, addV cd.1 (smulV cd.2 (1.2, 1.2, 0.8)))

/-- The auto-framer as worded by the specification (amended form): union
bounding box via per-axis min of all mins and max of all maxes, center at
the midpoint, size the Euclidean norm of `max - min`,
`distance = max(1, 1.8 * size)`, and the eye offset by
`(1.2, 1.2, 0.8) * distance` (the offset vector is not normalized). -/
noncomputable def autoFrameSpec (bounds : List (Vec3 × Vec3)) : Vec3 × ℝ × Vec3 :=
  let cd : Vec3 × ℝ :=
    match bounds with
    | [] => ((0, 0, 0), 5)
    | b :: bs =>
      let minX := (bs.map fun p => p.1.1).foldr min b.1.1
      let minY := (bs.map fun p => p.1.2.1).foldr min b.1.2.1
      let minZ := (bs.map fun p => p.1.2.2).foldr min b.1.2.2
      let maxX := (bs.map fun p => p.2.1).foldr max b.2.1
      let maxY := (bs.map fun p => p.2.2.1).foldr max b.2.2.1
      let maxZ := (bs.map fun p => p.2.2.2).foldr max b.2.2.2
      let center : Vec3 := ((minX + maxX) / 2, (minY + maxY) / 2, (minZ + maxZ) / 2)
      let size := norm3 (maxX - minX, maxY - minY, maxZ - minZ)
      (center, max 1 (1.8 * size))
  (cd.1, cd.2, addV cd.1 (smulV cd.2 (1.2, 1.2, 0.8)))

/-- Eye position asserted by the claim: `center + normalize(1.2, 1.2, 0.8)
* distance`. -/
noncomputable def claimEye (bounds : List (Vec3 × Vec3)) : Vec3 :=
  addV (autoFrame bounds).1 (smulV (autoFrame bounds).2.1 (normalize3 (1.2, 1.2, 0.8)))

/-! ## Helper lemmas about the clamping primitives -/

theorem clamp_mem (v : ℚ) {lo hi : ℚ} (h : lo ≤ hi) :
    lo ≤ clamp v lo hi ∧ clamp v lo hi ≤ hi := by
  unfold clamp
  constructor
  · exact le_max_left _ _
  · exact max_le h (min_le_left _ _)

theorem clamp_eq_self {v lo hi : ℚ} (h1 : lo ≤ v) (h2 : v ≤ hi) :
    clamp v lo hi = v := by
  unfold clamp
  rw [min_eq_right h2, max_eq_right h1]

theorem clamp_idem (v : ℚ) {lo hi : ℚ} (h : lo ≤ hi) :
    clamp (clamp v lo hi) lo hi = clamp v lo hi :=
  clamp_eq_self (clamp_mem v h).1 (clamp_mem v h).2

theorem clampInt_eq_self {v lo hi : ℤ} (h1 : lo ≤ v) (h2 : v ≤ hi) :
    clampInt v lo hi = v := by
  unfold clampInt
  rw [min_eq_right h2, max_eq_right h1]

theorem clampInt_idem (v : ℤ) {lo hi : ℤ} (h : lo ≤ hi) :
    clampInt (clampInt v lo hi) lo hi = clampInt v lo hi := by
  refine clampInt_eq_self (le_max_left _ _) (max_le h (min_le_left _ _))

theorem getD_pad (l : List ℚ) (i : ℕ) :
    (l ++ List.replicate (3 - l.length) 0).getD i 0 = l.getD i 0 := by
  by_cases h : i < l.length
  · rw [List.getD_append _ _ _ _ h]
  · push_neg at h
    rw [List.getD_eq_default _ _ h, List.getD_append_right _ _ _ _ h]
    simp [List.getD, List.getElem?_replicate]
    split <;> rfl

/-- `_clamp_vec` at length 3 is the clamped triple of defaulted entries. -/
theorem clampVec3 (l : List ℚ) (lo hi : ℚ) :
    clampVec l lo hi 3 =
      [clamp (l.getD 0 0) lo hi, clamp (l.getD 1 0) lo hi, clamp (l.getD 2 0) lo hi] := by
  simp only [clampVec]
  rw [show List.range 3 = [0, 1, 2] from rfl]
  simp only [List.map_cons, List.map_nil, getD_pad]

theorem clampVec3_length (l : List ℚ) (lo hi : ℚ) :
    (clampVec l lo hi 3).length = 3 := by
  rw [clampVec3]; rfl

theorem clampVec3_mem {x : ℚ} (l : List ℚ) {lo hi : ℚ} (hlh : lo ≤ hi)
    (hx : x ∈ clampVec l lo hi 3) : lo ≤ x ∧ x ≤ hi := by
  rw [clampVec3] at hx
  simp only [List.mem_cons, List.not_mem_nil, or_false] at hx
  rcases hx with h | h | h <;> rw [h] <;> exact clamp_mem _ hlh

theorem clampVec3_idem (l : List ℚ) {lo hi : ℚ} (h : lo ≤ hi) :
    clampVec (clampVec l lo hi 3) lo hi 3 = clampVec l lo hi 3 := by
  rw [clampVec3 l, clampVec3]
  simp only [List.getD_cons_zero, List.getD_cons_succ]
  rw [clamp_idem _ h, clamp_idem _ h, clamp_idem _ h]

/-! ## Shape of the per-object normalization step -/

theorem normObject_nonplane (o : ObjectSpec) (h : ¬ o.type = "plane") :
    normObject o =
      { o with
        transform :=
          { location := clampVec o.transform.location (-100) 100 3
          , rotation_degrees := clampVec o.transform.rotation_degrees (-360) 360 3
          , scale := clampVec o.transform.scale 0.05 50 3 }
        dimensions := clampVec o.dimensions 0.05 50 3 } := by
  unfold normObject
  rw [if_neg h]

theorem normObject_plane (o : ObjectSpec) (h : o.type = "plane") :
    normObject o =
      { o with
        transform :=
          { location :=
              if |(clampVec o.transform.location (-100) 100 3).getD 2 0| < 0.01 then
                (clampVec o.transform.location (-100) 100 3).set 2 0
              else clampVec o.transform.location (-100) 100 3
          , rotation_degrees := [0, 0, 0]
          , scale := clampVec o.transform.scale 0.05 50 3 }
        dimensions := clampVec o.dimensions 0.05 50 3 } := by
  simp only [normObject, if_pos h]
  split_ifs <;> rfl

theorem normObject_type (o : ObjectSpec) : (normObject o).type = o.type := by
  by_cases h : o.type = "plane"
  · rw [normObject_plane o h]
  · rw [normObject_nonplane o h]

/-- Re-clamping a clamped triple whose last entry was snapped to zero is the
identity (the zero stays in range). -/
theorem clampVec3_set2_zero (l : List ℚ) {lo hi : ℚ} (h0 : lo ≤ 0) (h1 : 0 ≤ hi) :
    clampVec ((clampVec l lo hi 3).set 2 0) lo hi 3 = (clampVec l lo hi 3).set 2 0 := by
  have hlh : lo ≤ hi := le_trans h0 h1
  rw [clampVec3 l]
  rw [show ([clamp (l.getD 0 0) lo hi, clamp (l.getD 1 0) lo hi,
      clamp (l.getD 2 0) lo hi]).set 2 (0:ℚ) =
      [clamp (l.getD 0 0) lo hi, clamp (l.getD 1 0) lo hi, 0] from rfl]
  rw [clampVec3]
  simp only [List.getD_cons_zero, List.getD_cons_succ]
  rw [clamp_idem _ hlh, clamp_idem _ hlh, clamp_eq_self h0 h1]

theorem getD2_set2 (l : List ℚ) (hlen : l.length = 3) : (l.set 2 0).getD 2 0 = 0 := by
  match l, hlen with
  | [a, b, c], _ => rfl

theorem normObject_idem (o : ObjectSpec) : normObject (normObject o) = normObject o := by
  by_cases h : o.type = "plane"
  · rw [normObject_plane o h]
    rw [normObject_plane _ (by simpa using h)]
    by_cases hz : |(clampVec o.transform.location (-100) 100 3).getD 2 0| < 0.01
    · rw [if_pos hz]
      have hset := clampVec3_set2_zero o.transform.location
        (show (-100:ℚ) ≤ 0 by norm_num) (show (0:ℚ) ≤ 100 by norm_num)
      rw [hset]
      rw [if_pos (by
        rw [getD2_set2 _ (clampVec3_length _ _ _)]
        norm_num)]
      rw [List.set_set]
      simp [clampVec3_idem _ (by norm_num : (0.05:ℚ) ≤ 50)]
    · rw [if_neg hz]
      simp only [clampVec3_idem _ (by norm_num : (-100:ℚ) ≤ 100)]
      rw [if_neg hz]
      simp [clampVec3_idem _ (by norm_num : (0.05:ℚ) ≤ 50)]
  · rw [normObject_nonplane o h]
    rw [normObject_nonplane _ (by simpa using h)]
    simp [clampVec3_idem _ (by norm_num : (-100:ℚ) ≤ 100),
      clampVec3_idem _ (by norm_num : (-360:ℚ) ≤ 360),
      clampVec3_idem _ (by norm_num : (0.05:ℚ) ≤ 50)]

/-! ## Shape of the plan-level normalization -/

theorem normalize_plan_render (p : ScenePlan) :
    (normalize_plan p).render =
      { duration_seconds := clamp p.render.duration_seconds 0.5 5
      , fps := clampInt p.render.fps 12 60
      , resolution_x := clampInt p.render.resolution_x 320 1920
      , resolution_y := clampInt p.render.resolution_y 180 1080
      , background_color := p.render.background_color } := rfl

theorem normalize_plan_camera (p : ScenePlan) :
    (normalize_plan p).camera = some
      { name := (p.camera.getD CameraSpec.default).name
      , transform :=
          { location :=
              clampVec (p.camera.getD CameraSpec.default).transform.location (-100) 100 3
          , rotation_degrees :=
              clampVec (p.camera.getD CameraSpec.default).transform.rotation_degrees (-360) 360 3
          , scale := clampVec (p.camera.getD CameraSpec.default).transform.scale 0.05 50 3 }
      , look_at := (p.camera.getD CameraSpec.default).look_at
      , animation := (p.camera.getD CameraSpec.default).animation
      , focal_length_mm := (p.camera.getD CameraSpec.default).focal_length_mm } := rfl

theorem normalize_plan_objects (p : ScenePlan) :
    (normalize_plan p).objects =
      if (p.objects.filterMap fun o =>
          if o.type ∈ SUPPORTED then some (normObject o) else none).isEmpty
      then [defaultCube]
      else p.objects.filterMap fun o =>
        if o.type ∈ SUPPORTED then some (normObject o) else none := rfl

theorem filterMap_id_of {α : Type} (l : List α) (f : α → Option α)
    (h : ∀ a ∈ l, f a = some a) : l.filterMap f = l := by
  induction l with
  | nil => rfl
  | cons x xs ih =>
    rw [List.filterMap_cons, h x (by simp)]
    rw [ih fun a ha => h a (by simp [ha])]

theorem mem_filterMap_norm {l : List ObjectSpec} {o : ObjectSpec}
    (ho : o ∈ l.filterMap fun a => if a.type ∈ SUPPORTED then some (normObject a) else none) :
    o.type ∈ SUPPORTED ∧ normObject o = o := by
  rw [List.mem_filterMap] at ho
  obtain ⟨a, _, hfa⟩ := ho
  by_cases hs : a.type ∈ SUPPORTED
  · rw [if_pos hs] at hfa
    obtain rfl := Option.some.inj hfa
    exact ⟨by rw [normObject_type]; exact hs, normObject_idem a⟩
  · rw [if_neg hs] at hfa
    exact absurd hfa (by simp)

/-- The synthetic default object is a fixed point of the per-object pass:
all of its numeric fields are already in range. -/
theorem normObject_defaultCube : normObject defaultCube = defaultCube := by
  rw [normObject_nonplane _ (by decide)]
  simp only [defaultCube, Transform.default, clampVec3,
    List.getD_cons_zero, List.getD_cons_succ]
  norm_num [clamp, min_def, max_def]

/-- Every object surviving normalization has a supported type and is a fixed
point of the per-object pass. -/
theorem mem_normalize_objects {p : ScenePlan} {o : ObjectSpec}
    (ho : o ∈ (normalize_plan p).objects) : o.type ∈ SUPPORTED ∧ normObject o = o := by
  rw [normalize_plan_objects] at ho
  by_cases he : (p.objects.filterMap fun o =>
      if o.type ∈ SUPPORTED then some (normObject o) else none).isEmpty
  · rw [if_pos he] at ho
    simp only [List.mem_singleton] at ho
    subst ho
    exact ⟨by decide, normObject_defaultCube⟩
  · rw [if_neg he] at ho
    exact mem_filterMap_norm ho

theorem normalize_objects_ne_nil (p : ScenePlan) : (normalize_plan p).objects ≠ [] := by
  rw [normalize_plan_objects]
  by_cases he : (p.objects.filterMap fun o =>
      if o.type ∈ SUPPORTED then some (normObject o) else none).isEmpty
  · rw [if_pos he]; simp
  · rw [if_neg he]
    simpa [List.isEmpty_iff] using he

/-- Idempotence of the full normalizer. -/
theorem normalize_plan_idem (p : ScenePlan) :
    normalize_plan (normalize_plan p) = normalize_plan p := by
  have hobj : (normalize_plan (normalize_plan p)).objects = (normalize_plan p).objects := by
    rw [normalize_plan_objects (normalize_plan p)]
    have hfix : ((normalize_plan p).objects.filterMap fun o =>
        if o.type ∈ SUPPORTED then some (normObject o) else none)
        = (normalize_plan p).objects :=
      filterMap_id_of _ _ fun a ha => by
        obtain ⟨h1, h2⟩ := mem_normalize_objects ha
        rw [if_pos h1, h2]
    rw [hfix, if_neg (by simpa [List.isEmpty_iff] using normalize_objects_ne_nil p)]
  have hrender : (normalize_plan (normalize_plan p)).render = (normalize_plan p).render := by
    rw [normalize_plan_render (normalize_plan p), normalize_plan_render p]
    exact RenderSettings.ext (clamp_idem _ (by norm_num)) (clampInt_idem _ (by norm_num))
      (clampInt_idem _ (by norm_num)) (clampInt_idem _ (by norm_num)) rfl
  have hcam : (normalize_plan (normalize_plan p)).camera = (normalize_plan p).camera := by
    rw [normalize_plan_camera (normalize_plan p), normalize_plan_camera p]
    simp only [Option.getD_some]
    exact congrArg some (CameraSpec.ext rfl
      (Transform.ext (clampVec3_idem _ (by norm_num)) (clampVec3_idem _ (by norm_num))
        (clampVec3_idem _ (by norm_num))) rfl rfl rfl)
  exact ScenePlan.ext rfl rfl hrender hcam hobj

/-! ## Range and length facts for the per-object pass -/

theorem set2_zero_cases {x : ℚ} (l : List ℚ)
    (hx : x ∈ ((clampVec l (-100) 100 3).set 2 0)) :
    x = 0 ∨ x ∈ clampVec l (-100) 100 3 := by
  rw [clampVec3] at hx ⊢
  rw [show ([clamp (l.getD 0 0) (-100) 100, clamp (l.getD 1 0) (-100) 100,
      clamp (l.getD 2 0) (-100) 100]).set 2 (0:ℚ) =
      [clamp (l.getD 0 0) (-100) 100, clamp (l.getD 1 0) (-100) 100, 0] from rfl] at hx
  simp only [List.mem_cons, List.not_mem_nil, or_false] at hx ⊢
  tauto

theorem normObject_ranges (o : ObjectSpec) :
    (∀ d ∈ (normObject o).dimensions, (0.05:ℚ) ≤ d ∧ d ≤ 50) ∧
    (∀ x ∈ (normObject o).transform.rotation_degrees, (-360:ℚ) ≤ x ∧ x ≤ 360) ∧
    (∀ x ∈ (normObject o).transform.location, (-100:ℚ) ≤ x ∧ x ≤ 100) := by
  by_cases h : o.type = "plane"
  · rw [normObject_plane o h]
    refine ⟨fun d hd => clampVec3_mem _ (by norm_num) hd, fun x hx => ?_, fun x hx => ?_⟩
    · simp only [List.mem_cons, List.not_mem_nil, or_false] at hx
      rcases hx with h | h | h <;> rw [h] <;> norm_num
    · simp only at hx
      split_ifs at hx with hz
      · rcases set2_zero_cases _ hx with h | h
        · rw [h]; norm_num
        · exact clampVec3_mem _ (by norm_num) h
      · exact clampVec3_mem _ (by norm_num) hx
  · rw [normObject_nonplane o h]
    exact ⟨fun d hd => clampVec3_mem _ (by norm_num) hd,
      fun x hx => clampVec3_mem _ (by norm_num) hx,
      fun x hx => clampVec3_mem _ (by norm_num) hx⟩

theorem normObject_lengths (o : ObjectSpec) :
    (normObject o).transform.location.length = 3 ∧
    (normObject o).transform.rotation_degrees.length = 3 ∧
    (normObject o).transform.scale.length = 3 ∧
    (normObject o).dimensions.length = 3 := by
  by_cases h : o.type = "plane"
  · rw [normObject_plane o h]
    refine ⟨?_, rfl, clampVec3_length _ _ _, clampVec3_length _ _ _⟩
    simp only
    split_ifs
    · rw [List.length_set]; exact clampVec3_length _ _ _
    · exact clampVec3_length _ _ _
  · rw [normObject_nonplane o h]
    exact ⟨clampVec3_length _ _ _, clampVec3_length _ _ _,
      clampVec3_length _ _ _, clampVec3_length _ _ _⟩

/-! ## Parametric torus counts and index wrapping -/

theorem torusVid_lt (su sv i j : ℕ) (hsu : 0 < su) (hsv : 0 < sv) :
    torusVid su sv i j < su * sv := by
  unfold torusVid
  have h1 : i % su < su := Nat.mod_lt _ hsu
  have h2 : j % sv < sv := Nat.mod_lt _ hsv
  calc (i % su) * sv + (j % sv) < (i % su) * sv + sv := by omega
    _ = ((i % su) + 1) * sv := by ring
    _ ≤ su * sv := Nat.mul_le_mul_right _ (by omega)

theorem sum_map_length_const {β : Type} (n m : ℕ) (g : ℕ → ℕ → β) :
    ((List.range n).map (List.length ∘ fun i => (List.range m).map (g i))).sum = n * m := by
  have h : (List.length ∘ fun i => (List.range m).map (g i)) = fun _ => m := by
    funext i
    simp [Function.comp]
  rw [h, List.map_const', List.sum_replicate, List.length_range, smul_eq_mul]

theorem parametricTorusVerts_length (R r : ℝ) (su sv : ℕ) :
    (parametricTorusVerts R r su sv).length = max 8 su * max 6 sv := by
  simp only [parametricTorusVerts]
  rw [List.length_flatMap]
  exact sum_map_length_const _ _ _

theorem length_flatMap_pairs {β : Type} (n m : ℕ) (g h : ℕ → ℕ → β) :
    ((List.range n).flatMap fun i =>
      (List.range m).flatMap fun j => [g i j, h i j]).length = n * m * 2 := by
  rw [List.length_flatMap]
  have h1 : (List.length ∘ fun i => (List.range m).flatMap fun j => [g i j, h i j])
      = fun _ : ℕ => m * 2 := by
    funext i
    simp only [Function.comp, List.length_flatMap, List.map_map]
    have h2 : (List.length ∘ fun j => [g i j, h i j]) = fun _ : ℕ => 2 := funext fun j => rfl
    rw [h2, List.map_const', List.sum_replicate, List.length_range, smul_eq_mul, Nat.mul_comm]
  rw [h1, List.map_const', List.sum_replicate, List.length_range, smul_eq_mul, Nat.mul_assoc]

theorem parametricTorusFaces_length (su sv : ℕ) :
    (parametricTorusFaces su sv).length = max 8 su * max 6 sv * 2 := by
  simp only [parametricTorusFaces]
  exact length_flatMap_pairs _ _ _ _

theorem parametricTorusFaces_mem_lt (su sv : ℕ) :
    ∀ f ∈ parametricTorusFaces su sv, ∀ k ∈ f, k < max 8 su * max 6 sv := by
  intro f hf k hk
  simp only [parametricTorusFaces, List.mem_flatMap, List.mem_range] at hf
  obtain ⟨i, _, j, _, hfm⟩ := hf
  have hsu : 0 < max 8 su := by omega
  have hsv : 0 < max 6 sv := by omega
  simp only [List.mem_cons, List.not_mem_nil, or_false] at hfm
  rcases hfm with h | h <;> subst h <;>
    simp only [List.mem_cons, List.not_mem_nil, or_false] at hk <;>
    rcases hk with h | h | h <;> subst h <;> exact torusVid_lt _ _ _ _ hsu hsv

/-! ## Pose composition lemmas -/

/-- The `sxyz` euler matrix of the transformations library is the extrinsic
X-then-Y-then-Z rotation, i.e. the matrix product `Rz(ak) Ry(aj) Rx(ai)`
acting on column vectors. -/
theorem eulerSXYZ_eq (a b c : ℝ) (v : Vec3) :
    eulerSXYZ a b c v = rotZ c (rotY b (rotX a v)) := by
  unfold eulerSXYZ rotX rotY rotZ
  refine Prod.ext ?_ (Prod.ext ?_ ?_) <;> ring

theorem viewerPose_eq (loc rotDeg v : Vec3) :
    viewerPose loc rotDeg v =
      addV loc (rotZ (deg2rad rotDeg.2.2)
        (rotY (deg2rad rotDeg.2.1) (rotX (deg2rad rotDeg.1) v))) := by
  unfold viewerPose
  rw [eulerSXYZ_eq]

theorem manimPose_eq_viewerPose (loc rotDeg v : Vec3) :
    manimPose loc rotDeg v = viewerPose loc rotDeg v := by
  rw [viewerPose_eq]
  rfl

/-! ## Auto-framer lemmas -/

theorem foldr_min_acc (l : List ℝ) (a x : ℝ) :
    l.foldr min (min a x) = min x (l.foldr min a) := by
  induction l with
  | nil => exact min_comm a x
  | cons y ys ih =>
    simp only [List.foldr_cons, ih]
    rw [min_left_comm]

theorem foldr_max_acc (l : List ℝ) (a x : ℝ) :
    l.foldr max (max a x) = max x (l.foldr max a) := by
  induction l with
  | nil => exact max_comm a x
  | cons y ys ih =>
    simp only [List.foldr_cons, ih]
    rw [max_left_comm]

/-- The numpy componentwise-min reduction equals the per-axis minima. -/
theorem foldl_minV (bs : List (Vec3 × Vec3)) (a : Vec3) :
    bs.foldl (fun acc p => minV acc p.1) a =
      ((bs.map fun p => p.1.1).foldr min a.1,
        ((bs.map fun p => p.1.2.1).foldr min a.2.1,
          (bs.map fun p => p.1.2.2).foldr min a.2.2)) := by
  induction bs generalizing a with
  | nil => rfl
  | cons x xs ih =>
    simp only [List.foldl_cons, List.map_cons, List.foldr_cons]
    rw [ih (minV a x.1)]
    simp only [minV]
    exact Prod.ext (foldr_min_acc _ _ _) (Prod.ext (foldr_min_acc _ _ _) (foldr_min_acc _ _ _))

/-- The numpy componentwise-max reduction equals the per-axis maxima. -/
theorem foldl_maxV (bs : List (Vec3 × Vec3)) (a : Vec3) :
    bs.foldl (fun acc p => maxV acc p.2) a =
      ((bs.map fun p => p.2.1).foldr max a.1,
        ((bs.map fun p => p.2.2.1).foldr max a.2.1,
          (bs.map fun p => p.2.2.2).foldr max a.2.2)) := by
  induction bs generalizing a with
  | nil => rfl
  | cons x xs ih =>
    simp only [List.foldl_cons, List.map_cons, List.foldr_cons]
    rw [ih (maxV a x.2)]
    simp only [maxV]
    exact Prod.ext (foldr_max_acc _ _ _) (Prod.ext (foldr_max_acc _ _ _) (foldr_max_acc _ _ _))

/-- The viewer's auto-framing computation coincides with the per-axis
bounding-box formulation. -/
theorem autoFrame_eq_spec (bounds : List (Vec3 × Vec3)) :
    autoFrame bounds = autoFrameSpec bounds := by
  cases bounds with
  | nil => rfl
  | cons b bs =>
    simp only [autoFrame, autoFrameSpec]
    rw [foldl_minV, foldl_maxV]
    simp only [addV, subV, smulV]
    refine Prod.ext (Prod.ext ?_ (Prod.ext ?_ ?_))
      (Prod.ext ?_ (Prod.ext ?_ (Prod.ext ?_ ?_))) <;> ring

/-! ## Concrete normalization computations used by witnesses -/

theorem normalize_emptyPlan_objects : (normalize_plan emptyPlan).objects = [defaultCube] := by
  rw [normalize_plan_objects]
  rfl

theorem default_mem_empty : defaultCube ∈ (normalize_plan emptyPlan).objects := by
  rw [normalize_emptyPlan_objects]
  exact List.mem_singleton.mpr rfl

theorem filterMap_teapot :
    (teapotPlan.objects.filterMap fun o =>
      if o.type ∈ SUPPORTED then some (normObject o) else none) = [] := by
  show List.filterMap _ [teapotObj] = []
  rw [List.filterMap_cons, if_neg (by decide)]
  rfl

theorem normalize_teapotPlan_objects : (normalize_plan teapotPlan).objects = [defaultCube] := by
  rw [normalize_plan_objects, filterMap_teapot]
  rfl

theorem normalize_mixedPlan_objects : (normalize_plan mixedPlan).objects = [defaultCube] := by
  rw [normalize_plan_objects]
  rw [show (mixedPlan.objects.filterMap fun o =>
      if o.type ∈ SUPPORTED then some (normObject o) else none) = [normObject defaultCube] from by
    show List.filterMap _ [teapotObj, defaultCube] = _
    rw [List.filterMap_cons, if_neg (by decide), List.filterMap_cons, if_pos (by decide)]
    rfl]
  rw [normObject_defaultCube]
  rfl

/-! ## Claim theorems -/

/-- C3: for every input plan, every object in the normalized plan has each
dimension component in [0.05, 50], each rotation_degrees component in
[-360, 360], and each location component in [-100, 100]. -/
theorem c3_range_invariant (p : ScenePlan) :
    ∀ o ∈ (normalize_plan p).objects,
      (∀ d ∈ o.dimensions, (0.05:ℚ) ≤ d ∧ d ≤ 50) ∧
      (∀ x ∈ o.transform.rotation_degrees, (-360:ℚ) ≤ x ∧ x ≤ 360) ∧
      (∀ x ∈ o.transform.location, (-100:ℚ) ≤ x ∧ x ≤ 100) := by
  intro o ho
  obtain ⟨_, hfix⟩ := mem_normalize_objects ho
  rw [← hfix]
  exact normObject_ranges o

/-- Witness for C3 at the empty plan and its inserted default cube. -/
theorem c3_range_invariant_witness :
    (∀ d ∈ defaultCube.dimensions, (0.05:ℚ) ≤ d ∧ d ≤ 50) ∧
    (∀ x ∈ defaultCube.transform.rotation_degrees, (-360:ℚ) ≤ x ∧ x ≤ 360) ∧
    (∀ x ∈ defaultCube.transform.location, (-100:ℚ) ≤ x ∧ x ≤ 100) :=
  c3_range_invariant emptyPlan defaultCube default_mem_empty

/-- C4: `normalize` is idempotent: a second pass changes no render setting,
camera field, or object. -/
theorem c4_normalize_idempotent (p : ScenePlan) :
    normalize_plan (normalize_plan p) = normalize_plan p :=
  normalize_plan_idem p

/-- C5 counterexample: the synthetic default object inserted for an empty
plan has location z = 0, not z = 0.5 as the claim states. -/
theorem c5_counterexample :
    ¬ ((normalize_plan emptyPlan).objects.map (fun o => o.transform.location.getD 2 0)
        = [0.5]) := by
  rw [normalize_emptyPlan_objects]
  simp only [List.map_cons, List.map_nil]
  intro h
  have h2 := List.head_eq_of_cons_eq h
  rw [show defaultCube.transform.location.getD 2 0 = 0 from rfl] at h2
  norm_num at h2

/-- C5 (amended): if every object of the plan is dropped (so the normalized
object list would be empty), normalize inserts exactly one synthetic
default object — a unit cube named "DefaultCube" with color (0.6, 0.7, 0.9)
located at the origin (location z = 0, not 0.5); and every normalized plan
has at least one object. -/
theorem c5_default_object (p : ScenePlan) (h : ∀ o ∈ p.objects, o.type ∉ SUPPORTED) :
    (normalize_plan p).objects = [defaultCube] ∧
    defaultCube.name = "DefaultCube" ∧ defaultCube.type = "cube" ∧
    defaultCube.dimensions = [1, 1, 1] ∧ defaultCube.color = ⟨0.6, 0.7, 0.9⟩ ∧
    defaultCube.transform.location = [0, 0, 0] ∧
    ∀ q : ScenePlan, (normalize_plan q).objects ≠ [] := by
  refine ⟨?_, rfl, rfl, rfl, ?_, rfl, normalize_objects_ne_nil⟩
  · rw [normalize_plan_objects]
    rw [List.filterMap_eq_nil_iff.mpr fun a ha => if_neg (h a ha)]
    rfl
  · show mkColor 0.6 0.7 0.9 = ⟨0.6, 0.7, 0.9⟩
    simp only [mkColor, clampUnit, Color.mk.injEq]
    norm_num [min_def, max_def]

/-- Witness for C5 at the teapot-only plan. -/
theorem c5_default_object_witness :
    (normalize_plan teapotPlan).objects = [defaultCube] ∧
    defaultCube.name = "DefaultCube" ∧ defaultCube.type = "cube" ∧
    defaultCube.dimensions = [1, 1, 1] ∧ defaultCube.color = ⟨0.6, 0.7, 0.9⟩ ∧
    defaultCube.transform.location = [0, 0, 0] ∧
    ∀ q : ScenePlan, (normalize_plan q).objects ≠ [] :=
  c5_default_object teapotPlan (by decide)

/-- C6: normalize silently drops every object whose type is not one of the
six supported primitives and continues with the rest; a plan whose only
object is a "teapot" normalizes to just the default placeholder cube, and
a plan holding a teapot plus a supported cube keeps the cube. -/
theorem c6_type_filter :
    (∀ (p : ScenePlan), ∀ o ∈ (normalize_plan p).objects, o.type ∈ SUPPORTED) ∧
    (normalize_plan teapotPlan).objects = [defaultCube] ∧
    (normalize_plan mixedPlan).objects = [defaultCube] :=
  ⟨fun _ _ ho => (mem_normalize_objects ho).1,
    normalize_teapotPlan_objects, normalize_mixedPlan_objects⟩

/-- Witness for C6: the surviving object of the empty plan has a supported
type. -/
theorem c6_type_filter_witness : defaultCube.type ∈ SUPPORTED :=
  c6_type_filter.1 emptyPlan defaultCube default_mem_empty

/-- C10: every vector field touched by normalize has exactly 3 components;
short inputs are zero-filled before clamping and long inputs are truncated
to their first three components. -/
theorem c10_vector_lengths :
    (∀ p : ScenePlan,
      (∀ o ∈ (normalize_plan p).objects,
        o.transform.location.length = 3 ∧ o.transform.rotation_degrees.length = 3 ∧
        o.transform.scale.length = 3 ∧ o.dimensions.length = 3) ∧
      ∀ c, (normalize_plan p).camera = some c →
        c.transform.location.length = 3 ∧ c.transform.rotation_degrees.length = 3 ∧
        c.transform.scale.length = 3) ∧
    (∀ (vals : List ℚ) (lo hi : ℚ) (i : ℕ), vals.length ≤ i → i < 3 →
      (clampVec vals lo hi 3).getD i 0 = clamp 0 lo hi) ∧
    ∀ (vals : List ℚ) (lo hi : ℚ), clampVec vals lo hi 3 = clampVec (vals.take 3) lo hi 3 := by
  refine ⟨fun p => ⟨fun o ho => ?_, fun c hc => ?_⟩, fun vals lo hi i h1 h2 => ?_,
    fun vals lo hi => ?_⟩
  · obtain ⟨_, hfix⟩ := mem_normalize_objects ho
    rw [← hfix]
    exact normObject_lengths o
  · rw [normalize_plan_camera] at hc
    obtain rfl := Option.some.inj hc
    exact ⟨clampVec3_length _ _ _, clampVec3_length _ _ _, clampVec3_length _ _ _⟩
  · rw [clampVec3]
    interval_cases i
    · simp only [List.getD_cons_zero]
      rw [List.getD_eq_default _ _ h1]
    · simp only [List.getD_cons_zero, List.getD_cons_succ]
      rw [List.getD_eq_default _ _ h1]
    · simp only [List.getD_cons_zero, List.getD_cons_succ]
      rw [List.getD_eq_default _ _ h1]
  · rw [clampVec3, clampVec3]
    have ht : ∀ j : ℕ, j < 3 → (vals.take 3).getD j 0 = vals.getD j 0 := by
      intro j hj
      simp [List.getD, List.getElem?_take, hj]
    rw [ht 0 (by norm_num), ht 1 (by norm_num), ht 2 (by norm_num)]

/-- Witness for C10: a one-component vector is zero-filled at index 2. -/
theorem c10_vector_lengths_witness :
    (clampVec [(7:ℚ)] 0 50 3).getD 2 0 = clamp 0 0 50 :=
  c10_vector_lengths.2.1 [7] 0 50 2 (by norm_num) (by norm_num)

/-- C9: the Primitive Builder's output does not depend on the transform's
scale field: two objects identical except for transform.scale produce the
same local mesh, color, and pose parameters. -/
theorem c9_scale_independent (o : ViewerObj) (t : ViewerTransform)
    (s1 s2 : Option (List ℚ)) :
    makeMesh { o with transform := some { t with scale := s1 } } =
      makeMesh { o with transform := some { t with scale := s2 } } := rfl

/-- C7: building a torus with dimensions [2, 2, 0.6] yields major radius
R = 1 and minor radius r = 0.3, and the parametric mesh generator at the
default segment counts produces exactly 64·32 vertices and 64·32·2
triangles whose indices are all wrapped below the vertex count. -/
theorem c7_torus_construction :
    (makeMesh torusObj).map (Option.map Mesh.geom)
      = Except.ok (some (LocalGeom.torus 1 0.3)) ∧
    (parametricTorusVerts 1 0.3 64 32).length = 64 * 32 ∧
    (parametricTorusFaces 64 32).length = 64 * 32 * 2 ∧
    ∀ f ∈ parametricTorusFaces 64 32, ∀ k ∈ f, k < 64 * 32 := by
  refine ⟨?_, ?_, ?_, fun f hf k hk => ?_⟩
  · simp only [makeMesh, torusObj, getIdx, show strLower "torus" = "torus" from by decide,
      if_neg (show ¬ ("torus" : String) = "cube" by decide),
      if_neg (show ¬ ("torus" : String) = "sphere" by decide),
      if_neg (show ¬ ("torus" : String) = "cylinder" by decide),
      if_neg (show ¬ ("torus" : String) = "cone" by decide),
      if_neg (show ¬ ("torus" : String) = "plane" by decide)]
    norm_num [Except.map, Except.bind, Bind.bind, pure, Except.pure]
  · rw [parametricTorusVerts_length]
    decide
  · rw [parametricTorusFaces_length]
    decide
  · exact lt_of_lt_of_eq (parametricTorusFaces_mem_lt 64 32 f hf k hk) (by decide)

/-- Witness for C7: the first generated face is in range. -/
theorem c7_torus_construction_witness : (0:ℕ) < 64 * 32 :=
  c7_torus_construction.2.2.2 [0, 32, 33] (by decide) 0 (by decide)

/-- C8: lenient loading tries the strict parse first; on failure it parses
the comment-stripped text; if that also fails, the error finally raised is
the strict-mode error of the original, unmodified text. -/
theorem c8_lenient_loader (ε α : Type) (parse : String → Except ε α)
    (strip : String → String) (txt : String) :
    (∀ v, parse txt = .ok v → loadJsonLenient parse strip txt = .ok v) ∧
    (∀ e v, parse txt = .error e → parse (strip txt) = .ok v →
      loadJsonLenient parse strip txt = .ok v) ∧
    (∀ e e2, parse txt = .error e → parse (strip txt) = .error e2 →
      loadJsonLenient parse strip txt = .error e) := by
  refine ⟨fun v hv => ?_, fun e v he hv => ?_, fun e e2 he he2 => ?_⟩
  · unfold loadJsonLenient
    rw [hv]
  · unfold loadJsonLenient
    rw [he, hv]
  · unfold loadJsonLenient
    rw [he, he2]

/-- Witness for C8: a parser that always fails surfaces the length of the
original text, not of the stripped retry. -/
theorem c8_lenient_loader_witness :
    loadJsonLenient (fun s : String => (Except.error s.length : Except ℕ ℕ))
      (fun s => s ++ "x") "ab" = Except.error 2 :=
  (c8_lenient_loader ℕ ℕ _ _ "ab").2.2 2 3 rfl rfl

/-- C2 counterexample: at rotation_degrees (90, 90, 0) the pose formula
`Translate · RotateX · RotateY · RotateZ` stated by the claim disagrees
with the pose the viewer applies (euler "sxyz"). -/
theorem c2_counterexample :
    claimPose (0, 0, 0) (90, 90, 0) (1, 0, 0) ≠ viewerPose (0, 0, 0) (90, 90, 0) (1, 0, 0) := by
  intro h
  have h2 := congrArg (fun w : Vec3 => w.2.1) h
  simp only [claimPose, viewerPose, eulerSXYZ, rotX, rotY, rotZ, addV, deg2rad] at h2
  rw [show (90:ℝ) * Real.pi / 180 = Real.pi / 2 by ring,
    show (0:ℝ) * Real.pi / 180 = 0 by ring] at h2
  simp [Real.cos_pi_div_two, Real.sin_pi_div_two] at h2

/-- C2 (amended): the pose applied to local geometry is
`Translate(location) · RotateZ(rz) · RotateY(ry) · RotateX(rx)` — the
extrinsic X-then-Y-then-Z rotation with degree-to-radian conversion — and
the interactive viewer and the Manim backend compose it identically. -/
theorem c2_pose_composition (loc rotDeg v : Vec3) :
    viewerPose loc rotDeg v =
      addV loc (rotZ (deg2rad rotDeg.2.2)
        (rotY (deg2rad rotDeg.2.1) (rotX (deg2rad rotDeg.1) v))) ∧
    manimPose loc rotDeg v = viewerPose loc rotDeg v :=
  ⟨viewerPose_eq loc rotDeg v, manimPose_eq_viewerPose loc rotDeg v⟩

/-- C1 counterexample: with no meshes the claim's eye
`center + normalize(1.2, 1.2, 0.8) · distance` differs from the eye the
code computes (the offset vector is not normalized in the source). -/
theorem c1_counterexample : claimEye [] ≠ (autoFrame []).2.2 := by
  intro h
  have h1 := congrArg (fun w : Vec3 => w.1) h
  simp only [claimEye, autoFrame, normalize3, norm3, smulV, addV] at h1
  set s := Real.sqrt ((1.2:ℝ) ^ 2 + 1.2 ^ 2 + 0.8 ^ 2) with hsdef
  have hgt : (1:ℝ) < s := by
    rw [hsdef]
    exact (Real.lt_sqrt (by norm_num)).mpr (by norm_num)
  have hpos : (0:ℝ) < s := lt_trans one_pos hgt
  have hne : s ≠ 0 := ne_of_gt hpos
  field_simp at h1
  nlinarith [h1, hgt, hpos]

/-- C1 (amended): the auto-framer computes the union bounding box (per-axis
min of mins, max of maxes), center at its midpoint, size the Euclidean
norm of max − min, distance = max(1, 1.8·size) (center = origin,
distance = 5 with no meshes), and the eye at
center + (1.2, 1.2, 0.8) · distance, the offset vector unnormalized. -/
theorem c1_auto_framer (bounds : List (Vec3 × Vec3)) :
    autoFrame bounds = autoFrameSpec bounds :=
  autoFrame_eq_spec bounds

end Scruffy
